import Mathlib

/-!
Shallow embedding of the nanobot repository's two source files:

* `src/nanobot/providers/github_copilot_token.py` — the Copilot token
  manager (`CopilotTokenManager`, module singleton `get_token_manager`).
  The credential store (the JSON file at `api_key_file`) is modelled as an
  abstract state `Option TokenData`: `none` stands for any read failure
  (missing file, unreadable, malformed JSON), `some d` for a successfully
  parsed JSON object.  Timestamps are rationals (`ℚ`), exact values of the
  Python floats involved.  The external authenticator's
  `get_api_key()` call is modelled by its outcome `Except String String`
  (an error raised, or a token returned); operations that may invoke it
  additionally return the number of invocations performed.

* `src/mcp-servers/searxng_server.py` — the `call_tool` handler of the
  SearXNG MCP server.  The HTTP exchange is modelled by its outcome.
-/

namespace Nanobot

/-- Parsed content of the credential JSON file.  `data.get("expires_at", 0)`
and `info.get("token", "")` read optional fields, hence both are `Option`;
`extraKeys` records whether the object holds any keys besides these two,
which matters only for the dict truthiness tests below. -/
structure TokenData where
  expires_at : Option ℚ
  token : Option String
  extraKeys : Bool
deriving DecidableEq, Repr

/-- Python truthiness of the parsed object: a dict is falsy iff it is
empty, i.e. truthy iff it has at least one key.  Both `if not info:` in
`needs_refresh` and `if info:` in `ensure_valid_token` test this. -/
def dictTruthy (d : TokenData) : Bool :=
  d.expires_at.isSome || d.token.isSome || d.extraKeys

/-- `REFRESH_THRESHOLD_SECONDS = 300` from the source. -/
def REFRESH_THRESHOLD_SECONDS : ℚ := 300

/-- Python `int(x)` applied to a real number: truncation toward zero. -/
def ratTrunc (q : ℚ) : ℤ := if 0 ≤ q then ⌊q⌋ else ⌈q⌉

/-- `CopilotTokenManager.is_token_usable`: open and parse the file (any
exception yields `False`), read `expires_at` defaulting to `0`, and return
`(expires_at - now) > REFRESH_THRESHOLD_SECONDS`. -/
def is_token_usable (store : Option TokenData) (now : ℚ) : Bool :=
  match store with
  | none => false
  | some data => decide (data.expires_at.getD 0 - now > REFRESH_THRESHOLD_SECONDS)

/-- `CopilotTokenManager.get_token_info`: parse the file, returning `None`
on any exception. -/
def get_token_info (store : Option TokenData) : Option TokenData :=
  store

/-- `CopilotTokenManager.ensure_valid_token`.  Returns the outcome
(`Except.ok token` or the authenticator's raised error) paired with the
number of times the authenticator's `get_api_key` was invoked.  The inner
`if info:` is dict truthiness, so a `None` and an empty parsed object both
fall through to the refresh call. -/
def ensure_valid_token (store : Option TokenData) (now : ℚ)
    (auth : Except String String) : Except String String × Nat :=
  if is_token_usable store now then
    match get_token_info store with
    | some info =>
      if dictTruthy info then (Except.ok (info.token.getD ""), 0)
      else (auth, 1)
    | none => (auth, 1)
  else
    (auth, 1)

/-- `CopilotTokenManager.needs_refresh`: `if not info:` (true for `None`
and for an empty parsed object) yields `(true, 0)`, else
`(seconds_left <= 300, seconds_left)` where
`seconds_left = int(expires_at - now)`. -/
def needs_refresh (store : Option TokenData) (now : ℚ) : Bool × ℤ :=
  match get_token_info store with
  | none => (true, 0)
  | some info =>
    if dictTruthy info then
      let seconds_left := ratTrunc (info.expires_at.getD 0 - now)
      (decide (seconds_left ≤ 300), seconds_left)
    else (true, 0)

/-- `CopilotTokenManager.refresh`: unconditionally call
`self._auth.get_api_key()` and return its result. -/
def refresh (auth : Except String String) : Except String String × Nat :=
  (auth, 1)

/-- State of the module-level singleton: the `_manager` global (instances
are identified by a creation id) together with a fresh-id supply counting
constructor runs. -/
structure SingletonState where
  manager : Option Nat
  nextId : Nat
deriving DecidableEq, Repr

/-- `get_token_manager`: construct a manager if `_manager is None`, store
it, and return the stored instance. -/
def get_token_manager (s : SingletonState) : Nat × SingletonState :=
  match s.manager with
  | some m => (m, s)
  | none => (s.nextId, ⟨some s.nextId, s.nextId + 1⟩)

/-- A sequence of `n` sequential calls to `get_token_manager`: the list of
returned instances and the final state. -/
def runCalls : Nat → SingletonState → List Nat × SingletonState
  | 0, s => ([], s)
  | n + 1, s =>
    let (m, s') := get_token_manager s
    let (ms, s'') := runCalls n s'
    (m :: ms, s'')

/-! Embedding of `src/mcp-servers/searxng_server.py`'s `call_tool`. -/

/-- One entry of the `results` array of the SearXNG JSON response; the
`title`, `url` and `content` fields are read with `.get(..., default)`. -/
structure SearchResult where
  title : Option String
  url : Option String
  content : Option String
deriving DecidableEq, Repr

/-- Outcome of the HTTP exchange inside `call_tool`: an `httpx.HTTPError`
(also raised by `raise_for_status`), any other exception, or a parsed JSON
body whose `results` field defaults to `[]`. -/
inductive HttpOutcome where
  | httpError (msg : String)
  | otherError (msg : String)
  | ok (results : List SearchResult)
deriving DecidableEq, Repr

/-- The `web_search` arguments dictionary: `query` and `count` are read
with `arguments.get`, so each may be absent. -/
structure SearchArgs where
  query : Option String
  count : Option ℤ
deriving DecidableEq, Repr

/-- `min(max(arguments.get("count", 5), 1), 10)` from `call_tool`. -/
def clampCount (args : SearchArgs) : ℤ :=
  min (max (args.count.getD 5) 1) 10

/-- `data.get("results", [])[:count]`: the result entries that get
formatted into the response. -/
def selectedResults (args : SearchArgs) (results : List SearchResult) :
    List SearchResult :=
  results.take (clampCount args).toNat

/-- The lines appended for one enumerated result item. -/
def formatItem (i : ℕ) (item : SearchResult) : List String :=
  let title := item.title.getD "No title"
  let url := item.url.getD ""
  let snippet := item.content.getD ""
  [toString i ++ ". " ++ title, "   " ++ url]
    ++ (if snippet ≠ "" then ["   " ++ snippet.take 200] else [])
    ++ [""]

/-- The `"\n".join(lines)` body built from the header line and the
enumerated (from 1) result items. -/
def formatResults (query : String) (results : List SearchResult) : String :=
  let header := "Results for: " ++ query ++ "\n"
  let body := (results.enumFrom 1).flatMap fun p => formatItem p.1 p.2
  String.intercalate "\n" (header :: body)

/-- `call_tool(name, arguments)`, with the HTTP exchange abstracted by its
outcome.  The returned `list[TextContent]` is modelled as the list of text
payloads. -/
def call_tool (name : String) (args : SearchArgs) (http : HttpOutcome) :
    List String :=
  if name ≠ "web_search" then
    ["Unknown tool: " ++ name]
  else
    let query := args.query.getD ""
    if query = "" then
      ["Error: query is required"]
    else
      match http with
      | HttpOutcome.httpError e => ["HTTP error: " ++ e]
      | HttpOutcome.otherError e => ["Error: " ++ e]
      | HttpOutcome.ok rs =>
        let results := selectedResults args rs
        if results = [] then
          ["No results for: " ++ query]
        else
          [formatResults query results]

/-! Theorems for the claims. -/

/-- Claim C1: for every stored credential record and every current time
`now ≥ 0`, `is_token_usable` returns `true` iff the record exists and
parses (`store = some d`) and `expires_at - now > 300`; every record with
`expires_at - now ≤ 300` (negative differences included) yields `false`,
and a parseable record lacking `expires_at` takes it as `0` and yields
`false`. -/
theorem claim1_is_usable_iff (store : Option TokenData) (now : ℚ) (h : 0 ≤ now) :
    (is_token_usable store now = true ↔
      ∃ d, store = some d ∧ 300 < d.expires_at.getD 0 - now) ∧
    (∀ d, store = some d → d.expires_at.getD 0 - now ≤ 300 →
      is_token_usable store now = false) ∧
    (∀ tok b, store = some ⟨none, tok, b⟩ → is_token_usable store now = false) := by
  refine ⟨⟨?_, ?_⟩, ?_, ?_⟩
  · intro hu
    cases store with
    | none => simp [is_token_usable] at hu
    | some d =>
      refine ⟨d, rfl, ?_⟩
      simpa [is_token_usable, REFRESH_THRESHOLD_SECONDS] using hu
  · rintro ⟨d, rfl, hd⟩
    simpa [is_token_usable, REFRESH_THRESHOLD_SECONDS] using hd
  · rintro d rfl hd
    simp [is_token_usable, REFRESH_THRESHOLD_SECONDS]
    linarith
  · rintro tok b rfl
    simp [is_token_usable, REFRESH_THRESHOLD_SECONDS]
    linarith

/-- Claim C1 witness: a record expiring 995 seconds after `now = 5` is
usable. -/
theorem claim1_witness :
    is_token_usable (some ⟨some 1000, some "abc", false⟩) 5 = true := by
  have h := claim1_is_usable_iff (some ⟨some 1000, some "abc", false⟩) 5 (by norm_num)
  exact h.1.mpr ⟨_, rfl, by norm_num⟩

/-- Claim C2 counterexample: on a record whose `expires_at - now` is
`-1/2`, `needs_refresh` returns `(true, 0)` (Python `int()` truncates
toward zero), while `floor(expires_at - now) = -1`, so `seconds_left` is
not `floor(expires_at - now)` as the claim states; moreover a record that
parses to an empty object at `now = 1000` yields `(true, 0)`, not the
claimed `(true, -1000)`, because `if not info:` is true for an empty
dict. -/
theorem claim2_counterexample :
    needs_refresh (some ⟨some (-(1:ℚ)/2), some "t", false⟩) 0 = (true, 0) ∧
    (⌊((-(1:ℚ)/2) - 0)⌋ : ℤ) = -1 ∧
    ((true, (0:ℤ)) : Bool × ℤ) ≠ (true, -1) ∧
    needs_refresh (some ⟨none, none, false⟩) 1000 = (true, 0) ∧
    ((true, (0:ℤ)) : Bool × ℤ) ≠ (true, -1000) := by
  refine ⟨?_, by norm_num, by decide, ?_, by decide⟩
  · norm_num [needs_refresh, get_token_info, dictTruthy, ratTrunc]
    norm_num [Int.ceil_le]
  · norm_num [needs_refresh, get_token_info, dictTruthy]

/-- Claim C2 (amended): `needs_refresh` returns `(true, 0)` when no record
is obtainable and also when the record parses to an empty object;
otherwise `seconds_left = int(expires_at - now)` truncated toward zero —
equal to `floor(expires_at - now)` whenever the difference is non-negative
— and it returns `(seconds_left ≤ 300, seconds_left)`, negative values
reported unchanged; a record expiring in exactly 301 seconds yields
`(false, 301)` and in exactly 300 seconds `(true, 300)`. -/
theorem claim2_needs_refresh (store : Option TokenData) (now : ℚ) :
    (store = none → needs_refresh store now = (true, 0)) ∧
    (∀ d, store = some d → dictTruthy d = false →
      needs_refresh store now = (true, 0)) ∧
    (∀ d, store = some d → dictTruthy d = true →
      needs_refresh store now
        = (decide (ratTrunc (d.expires_at.getD 0 - now) ≤ 300),
           ratTrunc (d.expires_at.getD 0 - now))) ∧
    (∀ d t, store = some d → d.expires_at = some t → 0 ≤ t - now →
      (needs_refresh store now).2 = ⌊t - now⌋) ∧
    (∀ d t, store = some d → d.expires_at = some t → t - now = 301 →
      needs_refresh store now = (false, 301)) ∧
    (∀ d t, store = some d → d.expires_at = some t → t - now = 300 →
      needs_refresh store now = (true, 300)) := by
  refine ⟨?_, ?_, ?_, ?_, ?_, ?_⟩
  · rintro rfl; rfl
  · rintro d rfl hd
    simp [needs_refresh, get_token_info, hd]
  · rintro d rfl hd
    simp [needs_refresh, get_token_info, hd]
  · rintro d t rfl ht hd
    simp [needs_refresh, get_token_info, dictTruthy, ht, ratTrunc, hd]
  · rintro d t rfl ht hd
    simp [needs_refresh, get_token_info, dictTruthy, ht, ratTrunc, hd]
  · rintro d t rfl ht hd
    simp [needs_refresh, get_token_info, dictTruthy, ht, ratTrunc, hd]

/-- Claim C2 witness: a record expiring in exactly 301 seconds yields
`(false, 301)`. -/
theorem claim2_witness :
    needs_refresh (some ⟨some 301, some "t", false⟩) 0 = (false, 301) := by
  have h := claim2_needs_refresh (some ⟨some 301, some "t", false⟩) 0
  exact h.2.2.2.2.1 _ 301 rfl rfl (by norm_num)

/-- Claim C3 counterexample: a record parsing to an empty object at
`now = -400` makes `is_token_usable` true (the defaulted `expires_at = 0`
is more than 300 beyond that clock) and the record is obtainable, yet
`ensure_valid_token` invokes the authenticator once and returns its token
— `if info:` is false for an empty dict — instead of the claimed record
token field `""` with zero invocations. -/
theorem claim3_counterexample :
    is_token_usable (some ⟨none, none, false⟩) (-400) = true ∧
    get_token_info (some ⟨none, none, false⟩) = some ⟨none, none, false⟩ ∧
    ensure_valid_token (some ⟨none, none, false⟩) (-400) (Except.ok "fresh")
      = (Except.ok "fresh", 1) ∧
    ((Except.ok "fresh", 1) : Except String String × ℕ) ≠ (Except.ok "", 0) := by
  refine ⟨?_, rfl, ?_, by simp⟩
  · norm_num [is_token_usable, REFRESH_THRESHOLD_SECONDS]
  · norm_num [ensure_valid_token, is_token_usable, REFRESH_THRESHOLD_SECONDS,
      get_token_info, dictTruthy]

/-- Claim C3 (amended): for every state with current time `now ≥ 0` in
which `is_token_usable` is true and a record is obtainable,
`ensure_valid_token` returns the record's token field and performs zero
authenticator invocations; the result does not depend on `auth`.  (With
`now ≥ 0`, usability forces `expires_at` to be present, so the record is
non-empty and passes the `if info:` truthiness test.) -/
theorem claim3_usable_no_refresh (store : Option TokenData) (now : ℚ)
    (auth : Except String String) (d : TokenData) (hnow : 0 ≤ now)
    (hs : store = some d) (hu : is_token_usable store now = true) :
    ensure_valid_token store now auth = (Except.ok (d.token.getD ""), 0) := by
  subst hs
  obtain ⟨t, ht⟩ : ∃ t, d.expires_at = some t := by
    cases he : d.expires_at with
    | some t => exact ⟨t, rfl⟩
    | none =>
      exfalso
      simp [is_token_usable, REFRESH_THRESHOLD_SECONDS, he] at hu
      linarith
  have htr : dictTruthy d = true := by simp [dictTruthy, ht]
  simp [ensure_valid_token, hu, get_token_info, htr]

/-- Claim C3 witness: on a usable record the stored token `"abc"` is
returned with no authenticator call, even though the authenticator would
fail. -/
theorem claim3_witness :
    ensure_valid_token (some ⟨some 1000, some "abc", false⟩) 0 (Except.error "boom")
      = (Except.ok "abc", 0) :=
  claim3_usable_no_refresh _ 0 _ _ (by norm_num) rfl
    (by norm_num [is_token_usable, REFRESH_THRESHOLD_SECONDS])

/-- Claim C4: when the record is absent or not usable
(`is_token_usable = false`, which covers both), `ensure_valid_token`
invokes the authenticator exactly once and returns its outcome. -/
theorem claim4_unusable_refreshes (store : Option TokenData) (now : ℚ)
    (auth : Except String String) (h : is_token_usable store now = false) :
    ensure_valid_token store now auth = (auth, 1) := by
  simp [ensure_valid_token, h]

/-- Claim C4 witness: with an absent record the authenticator is invoked
once and its token `"newtok"` is returned. -/
theorem claim4_witness :
    ensure_valid_token none 0 (Except.ok "newtok") = (Except.ok "newtok", 1) :=
  claim4_unusable_refreshes none 0 _ rfl

/-- Claim C5: an error raised by the authenticator propagates unchanged
through `refresh` and through `ensure_valid_token` (on its refresh path),
and any error surfaced by `ensure_valid_token` is exactly the
authenticator's error — the read path never produces one. -/
theorem claim5_error_propagation (store : Option TokenData) (now : ℚ) (e : String) :
    refresh (Except.error e) = (Except.error e, 1) ∧
    (is_token_usable store now = false →
      ensure_valid_token store now (Except.error e) = (Except.error e, 1)) ∧
    (∀ auth : Except String String, ∀ err : String,
      (ensure_valid_token store now auth).1 = Except.error err →
      auth = Except.error err) := by
  refine ⟨rfl, ?_, ?_⟩
  · intro h
    simp [ensure_valid_token, h]
  · intro auth err h
    cases hu : is_token_usable store now with
    | false => simpa [ensure_valid_token, hu] using h
    | true =>
      cases store with
      | none => simp [is_token_usable] at hu
      | some d =>
        cases htr : dictTruthy d with
        | true => simp [ensure_valid_token, hu, get_token_info, htr] at h
        | false => simpa [ensure_valid_token, hu, get_token_info, htr] using h

/-- Claim C5 witness: with an absent record, the authenticator error
`"boom"` comes back unchanged from `ensure_valid_token`. -/
theorem claim5_witness :
    ensure_valid_token none 0 (Except.error "boom") = (Except.error "boom", 1) :=
  (claim5_error_propagation none 0 "boom").2.1 rfl

/-- Claim C6 counterexample: a file that parses to `{"token": "abc"}` — a
record with a missing `expires_at` key — is returned as-is by
`get_token_info`, not as `none`, contradicting the claim that every read
failure including a missing key makes `current_record()` absent; only
open/parse exceptions are caught by the code. -/
theorem claim6_counterexample :
    get_token_info (some ⟨none, some "abc", false⟩)
      = some ⟨none, some "abc", false⟩ ∧
    get_token_info (some ⟨none, some "abc", false⟩) ≠ none :=
  ⟨rfl, by simp [get_token_info]⟩

/-- Claim C6 (amended): on a read failure of the file itself (missing,
unreadable or malformed, modelled by `store = none`), `is_token_usable`
returns `false` and `get_token_info` returns `none`, and both are total
functions of the store so no exception reaches the caller; a record that
parses but lacks keys is not absorbed: `get_token_info` returns it as-is
(present, not absent), and a missing `expires_at` key still yields
`is_token_usable = false` for every `now ≥ 0`. -/
theorem claim6_read_failure (now : ℚ) (h : 0 ≤ now) :
    (is_token_usable none now = false ∧ get_token_info none = none) ∧
    (∀ tok b, is_token_usable (some ⟨none, tok, b⟩) now = false) ∧
    (∀ d, get_token_info (some d) = some d) := by
  refine ⟨⟨rfl, rfl⟩, ?_, fun d => rfl⟩
  intro tok b
  simp [is_token_usable, REFRESH_THRESHOLD_SECONDS]
  linarith

/-- Claim C6 witness: at `now = 0`, the record `{"token": "abc"}` is not
usable while a failed read yields no record. -/
theorem claim6_witness :
    is_token_usable (some ⟨none, some "abc", false⟩) 0 = false ∧
    get_token_info none = none := by
  have h := claim6_read_failure 0 (by norm_num)
  exact ⟨h.2.1 (some "abc") false, h.1.2⟩

/-- Claim C7: `refresh` invokes the authenticator exactly once and returns
its outcome; it does not consult the store or the clock at all (they are
not inputs of the code path), so usability is bypassed. -/
theorem claim7_force_refresh (auth : Except String String) :
    refresh auth = (auth, 1) :=
  rfl

lemma runCalls_steady (k : ℕ) :
    ∀ (m : ℕ) (s : SingletonState), s.manager = some k →
      runCalls m s = (List.replicate m k, s)
  | 0, s, _ => by simp [runCalls]
  | m + 1, s, h => by
    simp [runCalls, get_token_manager, h, runCalls_steady k m s h,
      List.replicate_succ]

/-- Claim C8: starting from the uninitialised module state, a sequence of
`n ≥ 1` sequential `get_token_manager` calls returns the same instance
every time, and the final state has that instance stored with the fresh-id
supply advanced exactly once — the constructor ran exactly once and the
singleton variable never changed after being set. -/
theorem claim8_singleton (id0 n : ℕ) (h : 1 ≤ n) :
    (runCalls n ⟨none, id0⟩).1 = List.replicate n id0 ∧
    (runCalls n ⟨none, id0⟩).2 = ⟨some id0, id0 + 1⟩ := by
  obtain ⟨m, rfl⟩ : ∃ m, n = m + 1 := ⟨n - 1, (Nat.succ_pred_eq_of_pos h).symm⟩
  have hstep : get_token_manager ⟨none, id0⟩ = (id0, ⟨some id0, id0 + 1⟩) := rfl
  have hrest := runCalls_steady id0 m ⟨some id0, id0 + 1⟩ rfl
  simp [runCalls, hstep, hrest, List.replicate_succ]

/-- Claim C8 witness: three sequential calls all return instance `7` and
construct only once. -/
theorem claim8_witness :
    (runCalls 3 ⟨none, 7⟩).1 = List.replicate 3 7 ∧
    (runCalls 3 ⟨none, 7⟩).2 = ⟨some 7, 8⟩ :=
  claim8_singleton 7 3 (by norm_num)

/-- Claim C9: a usable record (`expires_at - now > 300`) with no `token`
field makes `ensure_valid_token` return the empty string with zero
authenticator invocations and no error, for any authenticator outcome
(the present `expires_at` key makes the dict non-empty, hence truthy). -/
theorem claim9_missing_token_field (now e : ℚ) (b : Bool)
    (auth : Except String String) (h : 300 < e - now) :
    ensure_valid_token (some ⟨some e, none, b⟩) now auth = (Except.ok "", 0) := by
  have hu : is_token_usable (some ⟨some e, none, b⟩) now = true := by
    simpa [is_token_usable, REFRESH_THRESHOLD_SECONDS] using h
  simp [ensure_valid_token, hu, get_token_info, dictTruthy]

/-- Claim C9 witness: a tokenless record expiring at 1000 with `now = 0`
yields `(Except.ok "", 0)` although the authenticator would fail. -/
theorem claim9_witness :
    ensure_valid_token (some ⟨some 1000, none, false⟩) 0 (Except.error "x")
      = (Except.ok "", 0) :=
  claim9_missing_token_field 0 1000 false _ (by norm_num)

/-- Claim C10: the `count` argument of `web_search` is clamped to
`[1, 10]` (defaulting to `5` when absent) rather than rejected; the result
entries formatted into the response number at most the clamped count and
never more than 10; and a call with an empty or missing query returns the
error text without raising, whatever the HTTP outcome. -/
theorem claim10_web_search (args : SearchArgs) (http : HttpOutcome) :
    (1 ≤ clampCount args ∧ clampCount args ≤ 10) ∧
    (args.count = none → clampCount args = 5) ∧
    (∀ rs, (selectedResults args rs).length ≤ (clampCount args).toNat ∧
           (selectedResults args rs).length ≤ 10) ∧
    (args.query.getD "" = "" →
      call_tool "web_search" args http = ["Error: query is required"]) := by
  refine ⟨⟨?_, ?_⟩, ?_, ?_, ?_⟩
  · exact le_min (le_max_right _ _) (by norm_num)
  · exact min_le_right _ _
  · intro hc
    simp [clampCount, hc]
  · intro rs
    constructor
    · exact List.length_take_le _ _
    · calc (selectedResults args rs).length ≤ (clampCount args).toNat :=
        List.length_take_le _ _
      _ ≤ (10 : ℤ).toNat := Int.toNat_le_toNat (min_le_right _ _)
      _ = 10 := rfl
  · intro hq
    simp [call_tool, hq]

/-- Claim C10 witness: an absent `count` clamps to `5`, and a missing
query gives the error text. -/
theorem claim10_witness :
    clampCount ⟨some "hi", none⟩ = 5 ∧
    call_tool "web_search" ⟨none, some 3⟩ (HttpOutcome.ok [])
      = ["Error: query is required"] := by
  constructor
  · exact (claim10_web_search ⟨some "hi", none⟩ (HttpOutcome.ok [])).2.1 rfl
  · exact (claim10_web_search ⟨none, some 3⟩ (HttpOutcome.ok [])).2.2.2 rfl

end Nanobot
